import Mathlib

/-!
Shallow embedding of the curve-fitting and target-optimization core of the
advanced-bidding-manager repository (curve.ts, target_analyzer.ts,
suggestions_sheet.ts, and the simulation-point helpers of
google_ads_client.ts).  JavaScript numbers are modelled as real numbers;
JavaScript `undefined`/`null` results are modelled as `Option`; a thrown
exception is modelled as `Except.error`.
-/

noncomputable section

namespace ABM

/-- The bidding strategy type (enum StrategyType in google_ads_client.ts). -/
inductive StrategyType where
  | TARGET_ROAS
  | TARGET_CPA
  | MAXIMIZE_CONVERSION_VALUE
  | MAXIMIZE_CONVERSIONS
deriving DecidableEq, Repr

open StrategyType

/-- Printable name of a strategy type, as the JS enum string value. -/
def strategyTypeName : StrategyType → String
  | TARGET_ROAS => "TARGET_ROAS"
  | TARGET_CPA => "TARGET_CPA"
  | MAXIMIZE_CONVERSION_VALUE => "MAXIMIZE_CONVERSION_VALUE"
  | MAXIMIZE_CONVERSIONS => "MAXIMIZE_CONVERSIONS"

/-- One platform-provided simulation point (SimulationPoint in
google_ads_client.ts).  The source type is a union of TargetRoasPoint and
TargetCpaPoint; we carry both target fields and let `getPointTarget` select
the one the strategy type reads. -/
structure SimulationPoint where
  biddableConversions : ℝ
  biddableConversionsValue : ℝ
  clicks : ℝ
  costMicros : ℝ
  impressions : ℝ
  topSlotImpressions : ℝ
  targetRoas : ℝ
  targetCpaMicros : ℝ

/-- GoogleAdsClient.getPointTarget: the target value of a single simulation
point, by strategy type. -/
def getPointTarget (strategyType : StrategyType) (point : SimulationPoint) : ℝ :=
  if strategyType = TARGET_ROAS then point.targetRoas
  else point.targetCpaMicros / 1e6

/-! ## Curve (curve.ts) -/

/-- A fitted (or unfitted) curve: strategy type, metric name, the three
parameters a b c (null when unfitted) and the R-squared score. -/
structure Curve where
  strategyType : StrategyType
  metricName : String
  a : Option ℝ
  b : Option ℝ
  c : Option ℝ
  rSquared : Option ℝ

/-- Curve.predictValue: evaluates the fitted family at a target; `none` when
the target is undefined or the model is unfitted. -/
def Curve.predictValue (cv : Curve) (target : Option ℝ) : Option ℝ :=
  match target, cv.a, cv.b, cv.c with
  | some t, some pa, some pb, some pc =>
      if cv.strategyType = TARGET_ROAS then
        -- predictValuePower: y = exp(a + b*ln(x) + c*ln(x)^2)
        some (Real.exp (pa + pb * Real.log t + pc * (Real.log t) ^ 2))
      else
        -- predictValuePolynomial: y = a*x^2 + b*x + c
        some (pa * t ^ 2 + pb * t + pc)
  | _, _, _, _ => none

/-- Curve.calculateGradient: the analytic derivative of the fitted family at
a target; `none` when the model is unfitted. -/
def Curve.calculateGradient (cv : Curve) (target : ℝ) : Option ℝ :=
  match cv.a, cv.b, cv.c with
  | some pa, some pb, some pc =>
      if cv.strategyType = TARGET_ROAS then
        -- Derivative of y = exp(a + b*ln(x) + c*ln(x)^2) is y * (b/x + 2*c*ln(x)/x)
        match cv.predictValue (some target) with
        | none => none
        | some pv => some (pv * (pb / target + 2 * pc * Real.log target / target))
      else
        -- Derivative of y = a*x^2 + b*x + c is 2*a*x + b
        some (2 * pa * target + pb)
  | _, _, _ => none

/-- Curve.calculateLossPower: RMSE of the power model on the data. -/
def calculateLossPower (data : List (ℝ × ℝ)) (params : List ℝ) : ℝ :=
  let pa := params.getD 0 0
  let pb := params.getD 1 0
  let pc := params.getD 2 0
  let totalErrorSquared := data.foldl
    (fun acc xy =>
      let logX := Real.log xy.1
      let prediction := Real.exp (pa + pb * logX + pc * logX ^ 2)
      acc + (xy.2 - prediction) ^ 2) 0
  Real.sqrt (totalErrorSquared / data.length)

/-- Curve.calculateLossPolynomial: RMSE of the quadratic model on the data. -/
def calculateLossPolynomial (data : List (ℝ × ℝ)) (params : List ℝ) : ℝ :=
  let pa := params.getD 0 0
  let pb := params.getD 1 0
  let pc := params.getD 2 0
  let totalErrorSquared := data.foldl
    (fun acc xy =>
      let prediction := pa * xy.1 ^ 2 + pb * xy.1 + pc
      acc + (xy.2 - prediction) ^ 2) 0
  Real.sqrt (totalErrorSquared / data.length)

/-- Curve.calculateLoss: loss of a parameter vector, by family. -/
def calculateLoss (strategyType : StrategyType) (data : List (ℝ × ℝ))
    (params : List ℝ) : ℝ :=
  if strategyType = TARGET_ROAS then calculateLossPower data params
  else calculateLossPolynomial data params

/-- Insert one simplex point into a loss-sorted list (models the JS
Array.sort comparator `lossOf a - lossOf b`). -/
def insertByLoss (lossOf : List ℝ → ℝ) (x : List ℝ) :
    List (List ℝ) → List (List ℝ)
  | [] => [x]
  | y :: ys =>
      if lossOf x ≤ lossOf y then x :: y :: ys else y :: insertByLoss lossOf x ys

/-- Sort the simplex by increasing loss. -/
def sortByLoss (lossOf : List ℝ → ℝ) (simplex : List (List ℝ)) :
    List (List ℝ) :=
  simplex.foldr (insertByLoss lossOf) []

/-- Curve.initializeSimplex: the initial params plus one point per dimension
with that coordinate perturbed by the factor 1.05. -/
def initializeSimplex (initialParams : List ℝ) : List (List ℝ) :=
  let dimensions := initialParams.length
  let perturbationFactor : ℝ := 1.05
  initialParams ::
    (List.range dimensions).map
      (fun i => initialParams.set i (initialParams.getD i 0 * perturbationFactor))

/-- Curve.calculateCentroid: the mean of the best n points of the simplex
(all but the worst). -/
def calculateCentroid (simplex : List (List ℝ)) (dimensions : ℕ) : List ℝ :=
  (List.range dimensions).map
    (fun j =>
      ((List.range dimensions).foldl
        (fun acc i => acc + (simplex.getD i []).getD j 0) 0) / dimensions)

/-- Curve.reflect: reflect a point through the centroid by a factor. -/
def reflect (centroid point : List ℝ) (factor : ℝ) : List ℝ :=
  centroid.mapIdx (fun i ci => ci + factor * (ci - point.getD i 0))

/-- Curve.shrink: move every point but the first halfway toward the best. -/
def shrinkSimplex (simplex : List (List ℝ)) (best : List ℝ) :
    List (List ℝ) :=
  let shrinkFactor : ℝ := 0.5
  simplex.mapIdx
    (fun i p =>
      if i = 0 then p
      else best.mapIdx (fun j bj => bj + shrinkFactor * (p.getD j 0 - bj)))

/-- One iteration of the Nelder-Mead loop body in Curve.fit: sort, then
reflect / expand / contract / shrink. -/
def nmIter (strategyType : StrategyType) (data : List (ℝ × ℝ)) (n : ℕ)
    (simplex0 : List (List ℝ)) : List (List ℝ) :=
  let lossOf := calculateLoss strategyType data
  let simplex := sortByLoss lossOf simplex0
  let best := simplex.getD 0 []
  let worst := simplex.getD n []
  let secondWorst := simplex.getD (n - 1) []
  let centroid := calculateCentroid simplex n
  let reflected := reflect centroid worst 1
  let lossReflected := lossOf reflected
  let lossWorst := lossOf worst
  let lossBest := lossOf best
  let lossSecondWorst := lossOf secondWorst
  if lossReflected < lossBest then
    let expanded := reflect centroid worst 2
    let lossExpanded := lossOf expanded
    simplex.set n (if lossExpanded < lossReflected then expanded else reflected)
  else if lossReflected < lossSecondWorst then
    simplex.set n reflected
  else
    let contractionFactor : ℝ := 0.5
    let contracted :=
      if lossReflected < lossWorst then reflect centroid worst contractionFactor
      else reflect centroid worst (-contractionFactor)
    let lossContracted := lossOf contracted
    if lossContracted < lossWorst then simplex.set n contracted
    else shrinkSimplex simplex best

/-- Curve.checkConvergence: the spread of losses across the simplex is below
the tolerance. -/
def checkConvergence (strategyType : StrategyType) (simplex : List (List ℝ))
    (tolerance : ℝ) (data : List (ℝ × ℝ)) : Prop :=
  let lossOf := calculateLoss strategyType data
  let bestLoss := lossOf (simplex.getD 0 [])
  let maxLossDifference :=
    (simplex.drop 1).foldl (fun m p => max m |lossOf p - bestLoss|) 0
  maxLossDifference < tolerance

open Classical

/-- The while-loop of Curve.fit, by remaining iteration budget. -/
def nmLoop (strategyType : StrategyType) (data : List (ℝ × ℝ)) (n : ℕ)
    (tolerance : ℝ) : ℕ → List (List ℝ) → List (List ℝ)
  | 0, simplex => simplex
  | fuel + 1, simplex =>
      let updated := nmIter strategyType data n simplex
      if checkConvergence strategyType updated tolerance data then updated
      else nmLoop strategyType data n tolerance fuel updated

/-- The parameter vector produced by Curve.fit: the first point of the final
simplex. -/
def fitParams (strategyType : StrategyType) (data : List (ℝ × ℝ))
    (initialParams : List ℝ) (maxIterations : ℕ) (tolerance : ℝ) : List ℝ :=
  let n := initialParams.length
  (nmLoop strategyType data n tolerance maxIterations
    (initializeSimplex initialParams)).getD 0 []

/-- Curve.calculateRSquared: coefficient of determination of a fitted curve
on its data (1 when all observed values are equal; points whose prediction
is unavailable are skipped). -/
def calculateRSquared (cv : Curve) (data : List (ℝ × ℝ)) : ℝ :=
  let yValues := data.map Prod.snd
  let meanY := yValues.sum / yValues.length
  let sums := data.foldl
    (fun (acc : ℝ × ℝ) xy =>
      match cv.predictValue (some xy.1) with
      | none => acc
      | some prediction =>
          (acc.1 + (xy.2 - meanY) ^ 2, acc.2 + (xy.2 - prediction) ^ 2)) (0, 0)
  if sums.1 = 0 then 1 else 1 - sums.2 / sums.1

/-- The Curve constructor: fit when the data has at least 3 points, else log
an error and leave the model unfitted (parameters and R-squared null). -/
def Curve.new (strategyType : StrategyType) (data : List (ℝ × ℝ))
    (initialParams : List ℝ) (metricName : String) (maxIterations : ℕ)
    (tolerance : ℝ) : Curve :=
  if 3 ≤ data.length then
    let params := fitParams strategyType data initialParams maxIterations tolerance
    let fitted : Curve :=
      ⟨strategyType, metricName, params.get? 0, params.get? 1, params.get? 2, none⟩
    { fitted with rSquared := some (calculateRSquared fitted data) }
  else
    ⟨strategyType, metricName, none, none, none, none⟩

/-! ## TargetAnalyzer (target_analyzer.ts) -/

/-- Configuration for the optimization algorithm. -/
structure OptimizationConfig where
  initialTarget : ℝ
  maxTarget : ℝ
  minTarget : ℝ
  maxIterations : ℕ
  learningRate : ℝ
  tolerance : ℝ

/-- TargetAnalyzer.getOptimizationConfig: fixed per-family constants. -/
def getOptimizationConfig (strategyType : StrategyType) : OptimizationConfig :=
  if strategyType = TARGET_ROAS then
    ⟨4.5, 500.0, 1.0, 1000, 0.05, 1e-5⟩
  else
    -- else StrategyType.TARGET_CPA
    ⟨50, 2000000.0, 1.0, 100000, 0.05, 1e-5⟩

/-- The gradient-ascent for-loop of findOptimalTargetForProfitUnconstrained,
by remaining iteration budget (`fuel` counts the iterations still allowed,
`i` is the source loop counter). -/
def ascendLoop (cv : Curve) (cfg : OptimizationConfig) :
    ℕ → ℕ → ℝ → ℝ → ℝ → ℝ
  | 0, _, target, _, _ => target
  | fuel + 1, i, target, learningRate, previousTarget =>
      match cv.calculateGradient target with
      | none => target
      | some gradient =>
          let gradientMagnitude := |gradient|
          let normalizedGradient :=
            if gradientMagnitude > 0 then gradient / gradientMagnitude else 0
          let newTarget :=
            max cfg.minTarget
              (min cfg.maxTarget (target + learningRate * normalizedGradient))
          let learningRate' :=
            if 0 < i ∧ (newTarget - target) * (target - previousTarget) < 0 then
              learningRate * 0.1
            else learningRate
          if |newTarget - previousTarget| < cfg.tolerance then newTarget
          else ascendLoop cv cfg fuel (i + 1) newTarget learningRate' target

/-- TargetAnalyzer.findOptimalTargetForProfitUnconstrained: gradient ascent
from the family's initial target. -/
def findOptimalTargetForProfitUnconstrained (cv : Curve)
    (strategyType : StrategyType) : ℝ :=
  let cfg := getOptimizationConfig strategyType
  ascendLoop cv cfg cfg.maxIterations 0 cfg.initialTarget cfg.learningRate 0

/-- JavaScript Math.sign. -/
def jsSign (x : ℝ) : ℝ := if 0 < x then 1 else if x < 0 then -1 else 0

/-- TargetAnalyzer.suggestNewTarget: a conservative move from the current
target toward the optimal one. -/
def suggestNewTarget (cv : Curve) (currentTarget optimalTarget : ℝ)
    (strategyType : StrategyType) : ℝ :=
  let maxTarget := (getOptimizationConfig strategyType).maxTarget
  -- The suggested target should not move for more than 5% of the way towards the optimal
  let maxMovePercentage : ℝ := 0.05
  -- If the potential profit gain is less than 10%, make an even smaller move
  let profitSensitivity : ℝ := 0.1
  match cv.predictValue (some currentTarget), cv.predictValue (some optimalTarget) with
  | some profitTarget, some profitOptimal =>
      let targetDifference := optimalTarget - currentTarget
      let maxTargetMove := |targetDifference| * maxMovePercentage
      let normalizedProfitDifference :=
        |profitOptimal - profitTarget| /
          max (max |profitTarget| |profitOptimal|) 1
      let targetMove :=
        if normalizedProfitDifference < profitSensitivity then
          maxTargetMove * (normalizedProfitDifference / profitSensitivity)
        else maxTargetMove
      let direction : ℝ := if targetDifference > 0 then 1 else -1
      let newTarget := currentTarget + direction * targetMove
      max 0.1 (min maxTarget newTarget)
  | _, _ =>
      -- Fallback to a simple small move of 5% if profit prediction fails.
      let fallbackMovePercentage : ℝ := 0.05
      currentTarget *
        (1 + jsSign (optimalTarget - currentTarget) * fallbackMovePercentage)

/-! ## Suggestion orchestrator (suggestions_sheet.ts) -/

/-- The metric the orchestrator optimizes toward. -/
def METRIC_TO_OPTIMIZE_TO : String := "profit"

/-- The tracked metrics. -/
def METRICS : List String :=
  ["profit", "cost", "conversionvalue", "clicks", "impressions", "conversions"]

/-- SuggestedTargetsSheet.calculateValue: the value of a metric at one
simulation point; an unrecognized metric key throws (Except.error). -/
def calculateValue (point : SimulationPoint) (metric : String) :
    Except String ℝ :=
  match metric with
  | "cost" => .ok (point.costMicros / 1e6)
  | "profit" => .ok (point.biddableConversionsValue - point.costMicros / 1e6)
  | "conversionvalue" => .ok point.biddableConversionsValue
  | "roas" =>
      .ok (if point.costMicros > 0 then
        point.biddableConversionsValue / (point.costMicros / 1e6) else 0)
  | "clicks" => .ok point.clicks
  | "conversions" => .ok point.biddableConversions
  | "impressions" => .ok point.impressions
  | _ => .error ("Invalid metric requested: " ++ metric)

/-- SuggestedTargetsSheet.calculateValuePerMetric: targets paired with metric
values, plus the positivity offset.  A point whose metric computation throws
is caught, logged and skipped (its value is not pushed); with every valid
metric name no point is ever skipped, so pairing by position is a zip. -/
def calculateValuePerMetric (strategyType : StrategyType)
    (points : List SimulationPoint) (currentTarget : Option ℝ)
    (metric : String) : Option ℝ × List (ℝ × ℝ) × ℝ :=
  let targetValues := points.map (getPointTarget strategyType)
  let values := points.filterMap (fun p => (calculateValue p metric).toOption)
  let lowestValue := (values.min?).getD 0
  let valueToAdd := if lowestValue < 0 then -lowestValue + 1 else 0
  let shifted :=
    if lowestValue < 0 then values.map (fun num => num + valueToAdd) else values
  (currentTarget, targetValues.zip shifted, valueToAdd)

/-- SuggestedTargetsSheet.createAndValidateCurve: fit a curve when the series
has at least 3 points and accept it only when its R-squared exceeds 0.8.
(The JS NaN check has no counterpart over the reals.) -/
def createAndValidateCurve (strategyType : StrategyType)
    (data : List (ℝ × ℝ)) (metricName : String) (initialParams : List ℝ) :
    Option Curve :=
  if 3 ≤ data.length then
    let curve := Curve.new strategyType data initialParams metricName 1000 1e-6
    match curve.rSquared with
    | some r => if r > 0.8 then some curve else none
    | none => none
  else none

/-- SuggestedTargetsSheet.createCurvesForAllMetrics: the association list of
accepted curves (with their offsets) per metric. -/
def createCurvesForAllMetrics (strategyType : StrategyType)
    (currentTarget : Option ℝ) (points : List SimulationPoint)
    (metrics : List String) (initialParams : List ℝ) :
    List (String × Curve × ℝ) :=
  metrics.filterMap
    (fun metric =>
      let r := calculateValuePerMetric strategyType points currentTarget metric
      match createAndValidateCurve strategyType r.2.1 metric initialParams with
      | some curve => some (metric, curve, r.2.2)
      | none => none)

/-- SuggestedTargetsSheet.getTargetSuggestions: the optimal and suggested
targets from the curve of the optimization metric.  (In the source a missing
entry for the optimization metric would fault on destructuring; the call
site guards membership, so the none branch is unreachable there.) -/
def getTargetSuggestions (currentTarget : ℝ) (dataMetric : List (ℝ × ℝ))
    (curves : List (String × Curve × ℝ)) (metricToOptimizeTowards : String) :
    Option ℝ × Option ℝ :=
  if dataMetric.length > 0 then
    match curves.lookup metricToOptimizeTowards with
    | some (curve, _) =>
        let optimalTarget :=
          findOptimalTargetForProfitUnconstrained curve curve.strategyType
        let suggestedTarget :=
          suggestNewTarget curve currentTarget optimalTarget curve.strategyType
        (some optimalTarget, some suggestedTarget)
    | none => (none, none)
  else (none, none)

/-- A spreadsheet cell: JS string | number. -/
inductive Cell where
  | str (s : String)
  | num (x : ℝ)
deriving DecidableEq

/-- The headers of the Suggestions sheet (getSuggestedTargetsHeaders). -/
def getSuggestedTargetsHeaders : List String :=
  ["Bidding Strategy ID", "Bidding Strategy Name", "Bidding Strategy Type",
   "Current Target", "Suggested Target", "Optimal Target",
   "Current Profit", "Suggested Profit", "Optimal Profit",
   "Current Cost", "Suggested Cost", "Optimal Cost",
   "Current Conversion Value", "Suggested Conversion Value",
   "Optimal Conversion Value",
   "Current Clicks", "Suggested Clicks", "Optimal Clicks",
   "Current Impressions", "Suggested Impressions", "Optimal Impressions",
   "Current Conversions", "Suggested Conversions", "Optimal Conversions"]

/-- The initial parameter guess generateSuggestionsRow hands to the fitter:
polynomial guess for TARGET_CPA, power guess otherwise. -/
def rowInitialParams (simType : StrategyType) : List ℝ :=
  if simType = TARGET_CPA then [0.1, 1, 25] else [-2, 2, -0.5]

/-- The value a target cell takes: the number when present, else the empty
string (the JS `?? ''`). -/
def targetCell (t : Option ℝ) : Cell :=
  match t with
  | some x => .num x
  | none => .str ""

/-- The predicted original-units value of one metric at one target: the
prediction minus the metric's offset, or the "N/A" marker. -/
def getOriginalValue (curve : Curve) (offset : ℝ) (target : Option ℝ) : Cell :=
  match curve.predictValue target with
  | none => .str "N/A"
  | some predictedValue => .num (predictedValue - offset)

/-- The three cells (current, suggested, optimal) pushed for one metric in
generateSuggestionsRow: predictions for an accepted curve, "N/A" otherwise. -/
def metricTriple (curves : List (String × Curve × ℝ)) (currentTarget : ℝ)
    (suggestedTarget optimalTarget : Option ℝ) (metric : String) : List Cell :=
  match curves.lookup metric with
  | some (curve, offset) =>
      [getOriginalValue curve offset (some currentTarget),
       getOriginalValue curve offset suggestedTarget,
       getOriginalValue curve offset optimalTarget]
  | none => [.str "N/A", .str "N/A", .str "N/A"]

/-- SuggestedTargetsSheet.generateSuggestionsRow: one result row per entity.
The entity's identity and the client's getEntityTarget result arrive as the
resourceName/name/entityTarget inputs; simulation points arrive as the
getPoints result (`none` models the undefined point list). -/
def generateSuggestionsRow (simType : StrategyType)
    (resourceName name : String) (entityTarget : Option ℝ)
    (points : Option (List SimulationPoint))
    (metricToOptimizeTowards : String) (metrics : List String) : List Cell :=
  let currentTarget := entityTarget.getD 0
  let firstCells : List Cell :=
    [.str resourceName, .str name, .str (strategyTypeName simType),
     .num currentTarget]
  let remainingCellsCount := getSuggestedTargetsHeaders.length - 5
  match points with
  | none =>
      firstCells ++ Cell.str "ERROR: No points found" ::
        List.replicate remainingCellsCount (Cell.str "No data points")
  | some points =>
      let initialParams := rowInitialParams simType
      let curves := createCurvesForAllMetrics simType (some currentTarget)
        points metrics initialParams
      let dataMetric := (calculateValuePerMetric simType points
        (some currentTarget) metricToOptimizeTowards).2.1
      if (curves.lookup metricToOptimizeTowards).isSome then
        let st := getTargetSuggestions currentTarget dataMetric curves
          metricToOptimizeTowards
        firstCells ++ targetCell st.2 :: targetCell st.1 ::
          metrics.flatMap (metricTriple curves currentTarget st.2 st.1)
      else
        firstCells ++ Cell.str "ERROR: No data found for optimization metric" ::
          List.replicate remainingCellsCount (Cell.str "No data points")

/-- The per-entity inputs the orchestrator consumes from its collaborators. -/
structure EntityInput where
  simType : StrategyType
  resourceName : String
  name : String
  entityTarget : Option ℝ
  points : Option (List SimulationPoint)

/-- The per-entity loop of getStrategySuggestions / getCampaignSuggestions /
getAdGroupSuggestions: one generated row appended per entity. -/
def getSuggestionRows (metricToOptimizeTowards : String)
    (metrics : List String) (entities : List EntityInput) : List (List Cell) :=
  entities.map
    (fun e => generateSuggestionsRow e.simType e.resourceName e.name
      e.entityTarget e.points metricToOptimizeTowards metrics)

/-! ## Concrete instances used in witnesses and counterexamples -/

/-- An unfitted power-family curve (as produced from fewer than 3 points). -/
def unfitCurve : Curve := ⟨TARGET_ROAS, "profit", none, none, none, none⟩

/-- A fitted quadratic-family curve with all parameters zero. -/
def zeroCurve : Curve := ⟨TARGET_CPA, "profit", some 0, some 0, some 0, some 1⟩

/-! ## Helper lemmas -/

/-- The quadratic family's tag differs from the power family's tag. -/
lemma cpa_ne_roas : TARGET_CPA ≠ TARGET_ROAS := by decide

/-- Clamping toward an interval that contains `c` never moves a point away
from `c`. -/
lemma abs_clamp_sub_le (lo hi u c : ℝ) (hlo : lo ≤ c) (hhi : c ≤ hi) :
    |max lo (min hi u) - c| ≤ |u - c| := by
  rcases le_total u lo with h | h
  · rw [min_eq_right (h.trans (hlo.trans hhi)), max_eq_left h,
      abs_of_nonpos (by linarith), abs_of_nonpos (by linarith)]
    linarith
  · rcases le_total hi u with h2 | h2
    · rw [min_eq_left h2, max_eq_right (hlo.trans hhi),
        abs_of_nonneg (by linarith), abs_of_nonneg (by linarith)]
      linarith
    · rw [min_eq_right h2, max_eq_right h]

/-! ## Claim theorems -/

/-- C9: constructing a Curve from a series with fewer than 3 points performs
no fit: the model stays unfitted (R-squared null), predictValue returns
undefined and calculateGradient returns null at every target. -/
theorem C9_short_series_yields_unfitted_curve (st : StrategyType)
    (data : List (ℝ × ℝ)) (ps : List ℝ) (m : String) (t : Option ℝ) (x : ℝ)
    (h : data.length < 3) :
    (Curve.new st data ps m 1000 1e-6).predictValue t = none ∧
    (Curve.new st data ps m 1000 1e-6).calculateGradient x = none ∧
    (Curve.new st data ps m 1000 1e-6).rSquared = none := by
  have h3 : ¬ 3 ≤ data.length := by omega
  refine ⟨?_, ?_, ?_⟩ <;>
    cases t <;> simp [Curve.new, h3, Curve.predictValue, Curve.calculateGradient]

/-- C9 witness: the empty series gives an unfitted curve with unavailable
prediction and gradient. -/
theorem C9_short_series_yields_unfitted_curve_witness :
    (Curve.new TARGET_ROAS [] [-2, 2, -0.5] "profit" 1000 1e-6).predictValue
      (some 2) = none ∧
    (Curve.new TARGET_ROAS [] [-2, 2, -0.5] "profit" 1000 1e-6).calculateGradient
      3 = none ∧
    (Curve.new TARGET_ROAS [] [-2, 2, -0.5] "profit" 1000 1e-6).rSquared = none :=
  C9_short_series_yields_unfitted_curve TARGET_ROAS [] [-2, 2, -0.5] "profit"
    (some 2) 3 (by simp)

/-- C10: whenever the profit prediction at the current or the optimal target
is unavailable, suggestNewTarget returns exactly
currentTarget * (1 + sign(optimalTarget - currentTarget) * 0.05), with no
clamping; for the concrete unfitted curve at currentTarget 0.02 and
optimalTarget 0.04 the result 0.021 lies outside [0.1, maxTarget]. -/
theorem C10_fallback_is_unclamped :
    (∀ (cv : Curve) (currentTarget optimalTarget : ℝ) (st : StrategyType),
      (cv.predictValue (some currentTarget) = none ∨
        cv.predictValue (some optimalTarget) = none) →
      suggestNewTarget cv currentTarget optimalTarget st =
        currentTarget * (1 + jsSign (optimalTarget - currentTarget) * 0.05)) ∧
    suggestNewTarget unfitCurve 0.02 0.04 TARGET_ROAS = 0.021 ∧
    ¬ (0.1 ≤ suggestNewTarget unfitCurve 0.02 0.04 TARGET_ROAS) := by
  refine ⟨?_, ?_, ?_⟩
  · intro cv currentTarget optimalTarget st h
    cases h1 : cv.predictValue (some currentTarget) <;>
      cases h2 : cv.predictValue (some optimalTarget) <;>
        simp [suggestNewTarget, h1, h2] <;> simp [h1, h2] at h
  · have h1 : unfitCurve.predictValue (some 0.02) = none := by
      simp [unfitCurve, Curve.predictValue]
    have h2 : unfitCurve.predictValue (some 0.04) = none := by
      simp [unfitCurve, Curve.predictValue]
    rw [suggestNewTarget]
    rw [h1]
    norm_num [jsSign]
  · have h1 : unfitCurve.predictValue (some 0.02) = none := by
      simp [unfitCurve, Curve.predictValue]
    rw [suggestNewTarget]
    rw [h1]
    norm_num [jsSign]

/-- C10 witness: the fallback formula applied at an explicit input. -/
theorem C10_fallback_is_unclamped_witness :
    suggestNewTarget unfitCurve 1 2 TARGET_ROAS =
      1 * (1 + jsSign (2 - 1) * 0.05) :=
  C10_fallback_is_unclamped.1 unfitCurve 1 2 TARGET_ROAS
    (Or.inl (by simp [unfitCurve, Curve.predictValue]))

/-- C1 counterexample: on the fallback path (profit prediction unavailable)
suggestNewTarget can return a value below 0.1: at currentTarget 0.01 and
optimalTarget 0.02 with an unfitted curve it returns 0.0105. -/
theorem C1_counterexample :
    suggestNewTarget unfitCurve 0.01 0.02 TARGET_ROAS = 0.0105 ∧
    ¬ (0.1 ≤ suggestNewTarget unfitCurve 0.01 0.02 TARGET_ROAS) := by
  have h1 : unfitCurve.predictValue (some 0.01) = none := by
    simp [unfitCurve, Curve.predictValue]
  constructor <;> (rw [suggestNewTarget]; rw [h1]; norm_num [jsSign])

/-- C1 (amended): when both profit predictions are available (the
non-fallback path) and the current target itself lies in [0.1, maxTarget],
suggestNewTarget moves by at most |optimalTarget - currentTarget| and its
result lies in [0.1, maxTarget]; the fallback path enforces neither bound. -/
theorem C1_suggest_bounds (cv : Curve) (st : StrategyType)
    (currentTarget optimalTarget pc po : ℝ)
    (hc : cv.predictValue (some currentTarget) = some pc)
    (ho : cv.predictValue (some optimalTarget) = some po)
    (h1 : 0.1 ≤ currentTarget)
    (h2 : currentTarget ≤ (getOptimizationConfig st).maxTarget) :
    |suggestNewTarget cv currentTarget optimalTarget st - currentTarget| ≤
      |optimalTarget - currentTarget| ∧
    0.1 ≤ suggestNewTarget cv currentTarget optimalTarget st ∧
    suggestNewTarget cv currentTarget optimalTarget st ≤
      (getOptimizationConfig st).maxTarget := by
  rw [suggestNewTarget]
  rw [hc, ho]
  dsimp only
  set M := (getOptimizationConfig st).maxTarget with hM
  set D := optimalTarget - currentTarget with hD
  set ndiff := |po - pc| / max (max |pc| |po|) 1 with hndiff
  have hndiff0 : 0 ≤ ndiff := by
    apply div_nonneg (abs_nonneg _)
    exact le_trans zero_le_one (le_max_right _ _)
  set mv := if ndiff < 0.1 then |D| * 0.05 * (ndiff / 0.1) else |D| * 0.05
    with hmv
  have hmv0 : 0 ≤ mv := by
    rw [hmv]
    split_ifs with h
    · positivity
    · positivity
  have hmvle : mv ≤ |D| := by
    rw [hmv]
    split_ifs with h
    · have hq : ndiff / 0.1 ≤ 1 := by
        rw [div_le_one (by norm_num : (0:ℝ) < 0.1)]
        linarith
      calc |D| * 0.05 * (ndiff / 0.1) ≤ |D| * 0.05 * 1 :=
            mul_le_mul_of_nonneg_left hq (by positivity)
        _ ≤ |D| := by nlinarith [abs_nonneg D]
    · nlinarith [abs_nonneg D]
  set dir : ℝ := if D > 0 then 1 else -1 with hdir
  have hdirabs : |dir| = 1 := by
    rw [hdir]
    split_ifs <;> simp
  refine ⟨?_, le_max_left _ _, max_le (h1.trans h2) (min_le_left _ _)⟩
  calc |max 0.1 (min M (currentTarget + dir * mv)) - currentTarget| ≤
      |currentTarget + dir * mv - currentTarget| :=
        abs_clamp_sub_le 0.1 M _ currentTarget h1 h2
    _ = |dir * mv| := by ring_nf
    _ = mv := by rw [abs_mul, hdirabs, one_mul, abs_of_nonneg hmv0]
    _ ≤ |D| := hmvle

/-- C1 witness: a fitted all-zero quadratic curve at currentTarget 1,
optimalTarget 2 satisfies the amended bounds. -/
theorem C1_suggest_bounds_witness :
    |suggestNewTarget zeroCurve 1 2 TARGET_CPA - 1| ≤ |(2 : ℝ) - 1| ∧
    0.1 ≤ suggestNewTarget zeroCurve 1 2 TARGET_CPA ∧
    suggestNewTarget zeroCurve 1 2 TARGET_CPA ≤
      (getOptimizationConfig TARGET_CPA).maxTarget :=
  C1_suggest_bounds zeroCurve TARGET_CPA 1 2 0 0
    (by norm_num [zeroCurve, Curve.predictValue, cpa_ne_roas])
    (by norm_num [zeroCurve, Curve.predictValue, cpa_ne_roas])
    (by norm_num) (by norm_num [getOptimizationConfig, cpa_ne_roas])

/-- A concrete well-formed simulation point. -/
def cexPoint : SimulationPoint := ⟨1, 5, 10, 2e6, 100, 7, 3, 4e6⟩

/-- The recognized metric keys of calculateValue. -/
def validMetricKeys : List String :=
  ["cost", "profit", "conversionvalue", "roas", "clicks", "conversions",
   "impressions"]

/-- An unrecognized metric key makes calculateValue throw. -/
lemma calculateValue_invalid (point : SimulationPoint) (metric : String)
    (h : metric ∉ validMetricKeys) :
    calculateValue point metric =
      Except.error ("Invalid metric requested: " ++ metric) := by
  unfold calculateValue
  split <;> simp_all [validMetricKeys]

/-- With an unrecognized metric key every point's value computation is
caught and skipped, so the per-metric series is empty and the call returns
normally with a zero offset. -/
lemma calculateValuePerMetric_invalid (st : StrategyType)
    (points : List SimulationPoint) (ct : Option ℝ) (metric : String)
    (h : metric ∉ validMetricKeys) :
    calculateValuePerMetric st points ct metric = (ct, [], 0) := by
  have hv : points.filterMap (fun p => (calculateValue p metric).toOption) = [] := by
    rw [List.filterMap_eq_nil]
    intro p _
    rw [calculateValue_invalid p metric h]
    rfl
  simp [calculateValuePerMetric, hv]

/-- C2 counterexample: the exception raised for an unrecognized metric key
does not propagate out of the per-entity computation: calculateValue throws,
yet calculateValuePerMetric returns normally and generateSuggestionsRow still
produces a complete row for the entity. -/
theorem C2_counterexample :
    calculateValue cexPoint "ctr" = Except.error "Invalid metric requested: ctr" ∧
    calculateValuePerMetric TARGET_ROAS [cexPoint] (some 1) "ctr" =
      (some 1, [], 0) ∧
    generateSuggestionsRow TARGET_ROAS "id" "nm" (some 1) (some [cexPoint])
        "profit" ["ctr"] =
      [Cell.str "id", Cell.str "nm", Cell.str "TARGET_ROAS", Cell.num 1,
       Cell.str "ERROR: No data found for optimization metric"] ++
      List.replicate 19 (Cell.str "No data points") := by
  have hctr : "ctr" ∉ validMetricKeys := by decide
  refine ⟨calculateValue_invalid cexPoint "ctr" hctr, ?_, ?_⟩
  · exact calculateValuePerMetric_invalid TARGET_ROAS [cexPoint] (some 1)
      "ctr" hctr
  · have hper := calculateValuePerMetric_invalid TARGET_ROAS [cexPoint]
      (some 1) "ctr" hctr
    simp [generateSuggestionsRow, createCurvesForAllMetrics, hper,
      createAndValidateCurve, getSuggestedTargetsHeaders, strategyTypeName]

/-- C2 (amended): calculateValue throws on an unrecognized metric key, but
calculateValuePerMetric catches the exception and skips the point, so no
exception propagates out of the per-entity computation and entity
processing is not aborted. -/
theorem C2_invalid_metric_caught :
    (∀ (point : SimulationPoint) (metric : String),
      metric ∉ validMetricKeys →
      calculateValue point metric =
        Except.error ("Invalid metric requested: " ++ metric)) ∧
    (∀ (st : StrategyType) (points : List SimulationPoint) (ct : Option ℝ)
      (metric : String), metric ∉ validMetricKeys →
      calculateValuePerMetric st points ct metric = (ct, [], 0)) :=
  ⟨calculateValue_invalid, calculateValuePerMetric_invalid⟩

/-- C2 witness: the caught invalid-metric exception at an explicit input. -/
theorem C2_invalid_metric_caught_witness :
    calculateValue cexPoint "ctr2" =
      Except.error ("Invalid metric requested: " ++ "ctr2") ∧
    calculateValuePerMetric TARGET_CPA [cexPoint] none "ctr2" =
      (none, [], 0) :=
  ⟨C2_invalid_metric_caught.1 cexPoint "ctr2" (by decide),
   C2_invalid_metric_caught.2 TARGET_CPA [cexPoint] none "ctr2" (by decide)⟩

/-- Simulation points whose profit series at targets 1, 2, 3 is
[-50, 10, 40] (the positivity-shift example of the spec). -/
def c7pts : List SimulationPoint :=
  [⟨1, 0, 0, 50e6, 0, 0, 1, 0⟩,
   ⟨1, 20, 0, 10e6, 0, 0, 2, 0⟩,
   ⟨1, 41, 0, 1e6, 0, 0, 3, 0⟩]

/-- Simulation points whose profit series at targets 1, 2, 3 is [0, 2, 3]
(nonnegative minimum, so no positivity shift fires). -/
def c6pts : List SimulationPoint :=
  [⟨1, 1, 0, 1e6, 0, 0, 1, 0⟩,
   ⟨1, 3, 0, 1e6, 0, 0, 2, 0⟩,
   ⟨1, 4, 0, 1e6, 0, 0, 3, 0⟩]

/-- The min? of a list bounds every member from below. -/
lemma min?_le_mem {l : List ℝ} {a : ℝ} (h : l.min? = some a) :
    ∀ b ∈ l, a ≤ b := by
  induction l generalizing a with
  | nil => simp [List.min?] at h
  | cons x xs ih =>
      rw [List.min?_cons] at h
      cases hxs : xs.min? with
      | none =>
          rw [hxs] at h
          simp at h
          have hnil : xs = [] := List.min?_eq_none_iff.mp hxs
          subst hnil
          simp [← h]
      | some m =>
          rw [hxs] at h
          simp at h
          intro b hb
          rcases List.mem_cons.mp hb with rfl | hbx
          · rw [← h]; exact min_le_left _ _
          · exact le_trans (h ▸ min_le_right x m) (ih hxs b hbx)

/-- C6 counterexample: a profit series with minimum 0 gets no positivity
shift, so a value below 1 (here 0) is passed to curve fitting. -/
theorem C6_counterexample :
    (calculateValuePerMetric TARGET_ROAS c6pts (some 1) "profit").2.1 =
      [(1, 0), (2, 2), (3, 3)] ∧
    ¬ (∀ pr ∈ (calculateValuePerMetric TARGET_ROAS c6pts (some 1) "profit").2.1,
        1 ≤ pr.2) := by
  have heq : (calculateValuePerMetric TARGET_ROAS c6pts (some 1) "profit").2.1 =
      [(1, 0), (2, 2), (3, 3)] := by
    norm_num [calculateValuePerMetric, c6pts, calculateValue, getPointTarget,
      Except.toOption, List.filterMap_cons, List.min?, min_def]
  refine ⟨heq, fun hall => ?_⟩
  have := hall (1, 0) (by rw [heq]; simp)
  norm_num at this

/-- C6 (amended): when the minimum computed value of a metric series is
negative, the positivity shift makes every value in the series passed to
curve fitting at least 1; a series with nonnegative minimum is passed
through unshifted. -/
theorem C6_shift_makes_values_ge_one (st : StrategyType)
    (points : List SimulationPoint) (ct : Option ℝ) (metric : String)
    (h : ((points.filterMap fun p =>
      (calculateValue p metric).toOption).min?.getD 0) < 0) :
    ∀ pr ∈ (calculateValuePerMetric st points ct metric).2.1, 1 ≤ pr.2 := by
  intro pr hpr
  simp only [calculateValuePerMetric] at hpr
  set values := points.filterMap (fun p => (calculateValue p metric).toOption)
    with hv
  cases hm : values.min? with
  | none => rw [hm] at h; simp at h
  | some m =>
      rw [hm] at h
      simp only [Option.getD_some] at h
      rw [hm] at hpr
      simp only [Option.getD_some, if_pos h] at hpr
      obtain ⟨t, v⟩ := pr
      have hvmem : v ∈ values.map (fun num => num + (-m + 1)) :=
        (List.of_mem_zip hpr).2
      obtain ⟨v0, hv0, rfl⟩ := List.mem_map.mp hvmem
      have := min?_le_mem hm v0 hv0
      simp only
      linarith

/-- C6 witness: the pair (1, 1) sits in the shifted profit series of the
[-50, 10, 40] example and its value is at least 1. -/
theorem C6_shift_makes_values_ge_one_witness :
    ((1 : ℝ), (1 : ℝ)) ∈
      (calculateValuePerMetric TARGET_ROAS c7pts (some 2) "profit").2.1 ∧
    1 ≤ (((1 : ℝ), (1 : ℝ)) : ℝ × ℝ).2 := by
  have hmem : ((1 : ℝ), (1 : ℝ)) ∈
      (calculateValuePerMetric TARGET_ROAS c7pts (some 2) "profit").2.1 := by
    norm_num [calculateValuePerMetric, c7pts, calculateValue, getPointTarget,
      Except.toOption, List.filterMap_cons, List.min?, min_def]
  exact ⟨hmem, C6_shift_makes_values_ge_one TARGET_ROAS c7pts (some 2) "profit"
    (by norm_num [c7pts, calculateValue, Except.toOption, List.filterMap_cons,
      List.min?, min_def]) _ hmem⟩

/-- C7: the offset of a metric series is -min + 1 when the minimum computed
value is negative and 0 otherwise, and for the profit series [-50, 10, 40]
at targets [1, 2, 3] the offset is 51 with shifted series [1, 61, 91]. -/
theorem C7_offset_rule :
    (∀ (st : StrategyType) (points : List SimulationPoint) (ct : Option ℝ)
      (metric : String),
      ((points.filterMap fun p =>
        (calculateValue p metric).toOption).min?.getD 0) < 0 →
      (calculateValuePerMetric st points ct metric).2.2 =
        -((points.filterMap fun p =>
          (calculateValue p metric).toOption).min?.getD 0) + 1) ∧
    (∀ (st : StrategyType) (points : List SimulationPoint) (ct : Option ℝ)
      (metric : String),
      ¬ ((points.filterMap fun p =>
        (calculateValue p metric).toOption).min?.getD 0) < 0 →
      (calculateValuePerMetric st points ct metric).2.2 = 0) ∧
    calculateValuePerMetric TARGET_ROAS c7pts (some 2) "profit" =
      (some 2, [(1, 1), (2, 61), (3, 91)], 51) := by
  refine ⟨?_, ?_, ?_⟩
  · intro st points ct metric h
    simp only [calculateValuePerMetric, if_pos h]
  · intro st points ct metric h
    simp only [calculateValuePerMetric, if_neg h]
  · norm_num [calculateValuePerMetric, c7pts, calculateValue, getPointTarget,
      Except.toOption, List.filterMap_cons, List.min?, min_def]

/-- C7 witness: the negative-minimum offset rule applied to the concrete
[-50, 10, 40] profit series. -/
theorem C7_offset_rule_witness :
    (calculateValuePerMetric TARGET_CPA c7pts none "profit").2.2 =
      -((c7pts.filterMap fun p =>
        (calculateValue p "profit").toOption).min?.getD 0) + 1 :=
  C7_offset_rule.1 TARGET_CPA c7pts none "profit"
    (by norm_num [c7pts, calculateValue, Except.toOption, List.filterMap_cons,
      List.min?, min_def])

/-- The gradient-ascent state stays inside [minTarget, maxTarget] on every
return path once it starts there. -/
lemma ascendLoop_bounds (cv : Curve) (cfg : OptimizationConfig)
    (hmm : cfg.minTarget ≤ cfg.maxTarget) :
    ∀ (fuel i : ℕ) (target lr prev : ℝ),
      cfg.minTarget ≤ target → target ≤ cfg.maxTarget →
      cfg.minTarget ≤ ascendLoop cv cfg fuel i target lr prev ∧
      ascendLoop cv cfg fuel i target lr prev ≤ cfg.maxTarget := by
  intro fuel
  induction fuel with
  | zero =>
      intro i target lr prev h1 h2
      exact ⟨h1, h2⟩
  | succ n ih =>
      intro i target lr prev h1 h2
      rw [ascendLoop]
      cases hg : cv.calculateGradient target with
      | none => exact ⟨h1, h2⟩
      | some g =>
          dsimp only
          set ng := if |g| > 0 then g / |g| else 0 with hng
          have hn1 : cfg.minTarget ≤ max cfg.minTarget
              (min cfg.maxTarget (target + lr * ng)) :=
            le_max_left _ _
          have hn2 : max cfg.minTarget
              (min cfg.maxTarget (target + lr * ng)) ≤ cfg.maxTarget :=
            max_le hmm (min_le_left _ _)
          split_ifs with hconv hrev
          · exact ⟨hn1, hn2⟩
          · exact ih (i + 1) _ _ target hn1 hn2
          · exact ih (i + 1) _ _ target hn1 hn2

/-- C4: for every curve and both strategy families, the gradient ascent
returns a value inside [minTarget, maxTarget] of the family's configuration,
on every return path. -/
theorem C4_optimal_target_within_bounds (cv : Curve) (st : StrategyType) :
    (getOptimizationConfig st).minTarget ≤
      findOptimalTargetForProfitUnconstrained cv st ∧
    findOptimalTargetForProfitUnconstrained cv st ≤
      (getOptimizationConfig st).maxTarget := by
  simp only [findOptimalTargetForProfitUnconstrained]
  refine ascendLoop_bounds cv _ ?_ _ _ _ _ _ ?_ ?_ <;>
    (unfold getOptimizationConfig; split_ifs <;> norm_num)

/-- A concave quadratic-family curve whose value peaks at target 5049.96. -/
def c3curve : Curve :=
  ⟨TARGET_CPA, "profit", some (-1), some 10099.92, some 0, some 1⟩

/-- Projections of the TARGET_CPA optimization configuration. -/
lemma cpaCfg_min : (getOptimizationConfig TARGET_CPA).minTarget = 1 := by
  norm_num [getOptimizationConfig, cpa_ne_roas]

lemma cpaCfg_max : (getOptimizationConfig TARGET_CPA).maxTarget = 2000000 := by
  norm_num [getOptimizationConfig, cpa_ne_roas]

lemma cpaCfg_tol : (getOptimizationConfig TARGET_CPA).tolerance = 1e-5 := by
  norm_num [getOptimizationConfig, cpa_ne_roas]

lemma cpaCfg_iters : (getOptimizationConfig TARGET_CPA).maxIterations = 100000 := by
  norm_num [getOptimizationConfig, cpa_ne_roas]

lemma cpaCfg_init : (getOptimizationConfig TARGET_CPA).initialTarget = 50 := by
  norm_num [getOptimizationConfig, cpa_ne_roas]

lemma cpaCfg_lr : (getOptimizationConfig TARGET_CPA).learningRate = 0.05 := by
  norm_num [getOptimizationConfig, cpa_ne_roas]

/-- On c3curve the gradient stays positive below the peak, so the ascent
walks up in fixed steps of 0.05 and spends its whole iteration budget. -/
lemma c3curve_run (fuel : ℕ) :
    ∀ (i : ℕ) (target prev : ℝ),
      50 ≤ target → target + 0.05 * (fuel : ℝ) ≤ 5050 →
      prev ≤ target - 0.05 →
      ascendLoop c3curve (getOptimizationConfig TARGET_CPA) fuel i target
        0.05 prev = target + 0.05 * (fuel : ℝ) := by
  induction fuel with
  | zero =>
      intro i target prev h1 h2 h3
      simp [ascendLoop]
  | succ n ih =>
      intro i target prev h1 h2 h3
      have hn0 : (0 : ℝ) ≤ n := Nat.cast_nonneg n
      push_cast at h2
      have htn : target ≤ 5049.95 := by linarith
      have hg : c3curve.calculateGradient target =
          some (2 * (-1) * target + 10099.92) := by
        simp [Curve.calculateGradient, c3curve, cpa_ne_roas]
      rw [ascendLoop]
      simp only [hg]
      have hgpos : (0 : ℝ) < 2 * (-1) * target + 10099.92 := by linarith
      have hng : (if |2 * (-1) * target + 10099.92| > 0 then
          (2 * (-1) * target + 10099.92) / |2 * (-1) * target + 10099.92|
          else 0) = 1 := by
        rw [abs_of_pos hgpos, if_pos hgpos, div_self hgpos.ne']
      rw [hng]
      have hclamp : max (getOptimizationConfig TARGET_CPA).minTarget
          (min (getOptimizationConfig TARGET_CPA).maxTarget
            (target + 0.05 * 1)) = target + 0.05 := by
        rw [cpaCfg_min, cpaCfg_max, min_eq_right (by linarith),
          max_eq_right (by linarith)]
        norm_num
      rw [hclamp]
      have hnc : ¬ |target + 0.05 - prev| <
          (getOptimizationConfig TARGET_CPA).tolerance := by
        rw [cpaCfg_tol, abs_of_nonneg (by linarith)]
        norm_num
        linarith
      rw [if_neg hnc]
      have hrev : ¬ (0 < i ∧
          (target + 0.05 - target) * (target - prev) < 0) := by
        rintro ⟨-, hp⟩
        nlinarith
      rw [if_neg hrev]
      rw [ih (i + 1) (target + 0.05) target (by linarith) (by push_cast; linarith)
        (by linarith)]
      push_cast
      ring

/-- C3 counterexample: on c3curve under TARGET_CPA the loop exhausts its
100000 iterations and returns 5050, although the target 5049.95 it held at
the start of the last iteration has a strictly higher predicted value. -/
theorem C3_counterexample :
    findOptimalTargetForProfitUnconstrained c3curve TARGET_CPA = 5050 ∧
    ascendLoop c3curve (getOptimizationConfig TARGET_CPA) 100000 0 50 0.05 0 =
      ascendLoop c3curve (getOptimizationConfig TARGET_CPA) 1 99999 5049.95
        0.05 5049.90 ∧
    (c3curve.predictValue (some 5050)).getD 0 <
      (c3curve.predictValue (some 5049.95)).getD 0 := by
  have h1 : ascendLoop c3curve (getOptimizationConfig TARGET_CPA) 100000 0 50
      0.05 0 = 5050 := by
    have h := c3curve_run 100000 0 50 0 (by norm_num) (by norm_num) (by norm_num)
    rw [h]
    norm_num
  have h2 : ascendLoop c3curve (getOptimizationConfig TARGET_CPA) 1 99999
      5049.95 0.05 5049.90 = 5050 := by
    have h := c3curve_run 1 99999 5049.95 5049.90 (by norm_num) (by norm_num)
      (by norm_num)
    rw [h]
    norm_num
  refine ⟨?_, h1.trans h2.symm, ?_⟩
  · simp only [findOptimalTargetForProfitUnconstrained]
    rw [cpaCfg_iters, cpaCfg_init, cpaCfg_lr]
    exact h1
  · simp only [Curve.predictValue, c3curve, if_neg cpa_ne_roas]
    norm_num

/-- C3 (amended): the loop stops and returns newTarget as soon as
|newTarget - previousTarget| falls below the tolerance; when the iteration
budget is exhausted it returns the last target reached — which need not be
the visited target with the highest predicted value. -/
theorem C3_loop_exit_behaviour :
    (∀ (cv : Curve) (cfg : OptimizationConfig) (fuel i : ℕ)
      (target lr prev g : ℝ),
      cv.calculateGradient target = some g →
      |max cfg.minTarget (min cfg.maxTarget
        (target + lr * (if |g| > 0 then g / |g| else 0))) - prev| <
        cfg.tolerance →
      ascendLoop cv cfg (fuel + 1) i target lr prev =
        max cfg.minTarget (min cfg.maxTarget
          (target + lr * (if |g| > 0 then g / |g| else 0)))) ∧
    (∀ (cv : Curve) (cfg : OptimizationConfig) (i : ℕ) (target lr prev : ℝ),
      ascendLoop cv cfg 0 i target lr prev = target) := by
  constructor
  · intro cv cfg fuel i target lr prev g hg hconv
    rw [ascendLoop]
    simp only [hg]
    rw [if_pos hconv]
  · intro cv cfg i target lr prev
    rw [ascendLoop]

/-- C3 witness: a convergence exit and a budget-exhaustion exit at explicit
inputs. -/
theorem C3_loop_exit_behaviour_witness :
    ascendLoop zeroCurve (getOptimizationConfig TARGET_CPA) 5 1 50 0.05 50 =
      max (getOptimizationConfig TARGET_CPA).minTarget
        (min (getOptimizationConfig TARGET_CPA).maxTarget
          (50 + 0.05 * (if |(0 : ℝ)| > 0 then (0 : ℝ) / |(0 : ℝ)| else 0))) ∧
    ascendLoop zeroCurve (getOptimizationConfig TARGET_CPA) 0 7 42 0.05 3 = 42 :=
  ⟨C3_loop_exit_behaviour.1 zeroCurve _ 4 1 50 0.05 50 0
    (by norm_num [Curve.calculateGradient, zeroCurve, cpa_ne_roas])
    (by norm_num [getOptimizationConfig, cpa_ne_roas, min_def, max_def]),
   C3_loop_exit_behaviour.2 zeroCurve _ 7 42 0.05 3⟩

/-- C5: every entity submitted to the orchestrator yields exactly one result
row; when the point list is missing or the optimization metric has no
accepted curve, every cell beyond the identity/current-target columns is
filled with a sentinel string, and both no-data paths complete normally. -/
theorem C5_sentinel_rows :
    (∀ (mto : String) (metrics : List String) (es : List EntityInput),
      (getSuggestionRows mto metrics es).length = es.length) ∧
    (∀ (simType : StrategyType) (rn nm : String) (et : Option ℝ)
      (mto : String) (metrics : List String),
      generateSuggestionsRow simType rn nm et none mto metrics =
        [Cell.str rn, Cell.str nm, Cell.str (strategyTypeName simType),
         Cell.num (et.getD 0), Cell.str "ERROR: No points found"] ++
        List.replicate 19 (Cell.str "No data points")) ∧
    (∀ (simType : StrategyType) (rn nm : String) (et : Option ℝ)
      (pts : List SimulationPoint) (mto : String) (metrics : List String),
      (createCurvesForAllMetrics simType (some (et.getD 0)) pts metrics
        (rowInitialParams simType)).lookup mto = none →
      generateSuggestionsRow simType rn nm et (some pts) mto metrics =
        [Cell.str rn, Cell.str nm, Cell.str (strategyTypeName simType),
         Cell.num (et.getD 0),
         Cell.str "ERROR: No data found for optimization metric"] ++
        List.replicate 19 (Cell.str "No data points")) := by
  refine ⟨?_, ?_, ?_⟩
  · intro mto metrics es
    simp [getSuggestionRows]
  · intro simType rn nm et mto metrics
    simp [generateSuggestionsRow, getSuggestedTargetsHeaders]
  · intro simType rn nm et pts mto metrics h
    simp [generateSuggestionsRow, h, getSuggestedTargetsHeaders]

/-- C5 witness: an entity with an empty point list fits no curve for any
metric, so its row is the sentinel row. -/
theorem C5_sentinel_rows_witness :
    generateSuggestionsRow TARGET_ROAS "ida" "nma" none (some []) "profit"
        METRICS =
      [Cell.str "ida", Cell.str "nma", Cell.str (strategyTypeName TARGET_ROAS),
       Cell.num (Option.getD none 0),
       Cell.str "ERROR: No data found for optimization metric"] ++
      List.replicate 19 (Cell.str "No data points") :=
  C5_sentinel_rows.2.2 TARGET_ROAS "ida" "nma" none [] "profit" METRICS
    (by norm_num [createCurvesForAllMetrics, METRICS, calculateValuePerMetric,
      createAndValidateCurve, List.min?])

/-- C8: a metric's curve is accepted exactly when its series has at least 3
points and the fitted R-squared exceeds 0.8 (the JS NaN guard has no
real-number counterpart), and a metric without an accepted curve is rendered
as three "N/A" cells wherever predictions are emitted. -/
theorem C8_curve_acceptance :
    (∀ (st : StrategyType) (data : List (ℝ × ℝ)) (m : String) (ps : List ℝ),
      (createAndValidateCurve st data m ps).isSome ↔
        (3 ≤ data.length ∧
          ∃ r, (Curve.new st data ps m 1000 1e-6).rSquared = some r ∧
            r > 0.8)) ∧
    (∀ (curves : List (String × Curve × ℝ)) (ct : ℝ) (sug opt : Option ℝ)
      (metric : String), curves.lookup metric = none →
      metricTriple curves ct sug opt metric =
        [Cell.str "N/A", Cell.str "N/A", Cell.str "N/A"]) := by
  constructor
  · intro st data m ps
    by_cases h3 : 3 ≤ data.length
    · rw [createAndValidateCurve, if_pos h3]
      cases hrs : (Curve.new st data ps m 1000 1e-6).rSquared with
      | none => simp [hrs, h3]
      | some r =>
          simp only [hrs, h3, true_and]
          by_cases hr : r > 0.8
          · simp [if_pos hr, hr]
          · simp [if_neg hr, hr]
    · rw [createAndValidateCurve, if_neg h3]
      simp [h3]
  · intro curves ct sug opt metric h
    simp [metricTriple, h]

/-- C8 witness: a metric absent from the accepted-curve map renders as three
"N/A" cells. -/
theorem C8_curve_acceptance_witness :
    metricTriple [] 1 none none "cost" =
      [Cell.str "N/A", Cell.str "N/A", Cell.str "N/A"] :=
  C8_curve_acceptance.2 [] 1 none none "cost" rfl

end ABM
